import Mathlib

/-!
Verification of the arrival normalization and aggregation engine of
`mta_bus_tracker.py` (NYC MTA bus and train tracker).

The Python source is shallowly embedded:
* JSON payloads become the inductive `Json`; the dynamically-typed dictionary,
  indexing and iteration operations of Python become total Lean functions
  returning `Except PyErr _`, where `PyErr` distinguishes the exception
  classes the source catches (`KeyError`, `IndexError`, `TypeError`) from the
  ones it does not (`AttributeError`, `ValueError`).
* Wall-clock sampling (`datetime.now()`) is modelled by a clock stream
  `clock : Nat → Int`: the k-th call of `datetime.now` during one poll reads
  `clock k`.  Timestamps are integer epoch seconds.
* `datetime.fromisoformat` is a library function, modelled by an arbitrary
  parameter `iso : String → Option Int` (epoch seconds on success, `none` for
  the `ValueError` case).  Likewise Python `str()` as invoked by the f-string
  of line 335 is the parameter `fmt : Json → String` (on actual strings it is
  hardcoded as the identity, which `str` guarantees), and Python `int()` on
  the refresh-interval string is the parameter `pyInt : String → Option Int`
  (`none` for its `ValueError` case, e.g. on the empty string).
* Python `int(x)` applied to the exact quotient `d / 60` truncates toward
  zero; this is `pyTruncDiv60`.
-/

/-- JSON values, as produced by `response.json()` in `get_bus_arrivals`. -/
inductive Json where
  | null : Json
  | bool (b : Bool) : Json
  | num (n : Int) : Json
  | str (s : String) : Json
  | arr (xs : List Json) : Json
  | obj (kvs : List (String × Json)) : Json

/-- Python exception classes relevant to `parse_arrivals` (line 352 catches
`KeyError`, `IndexError`, `TypeError`; `AttributeError` and `ValueError`
are not caught there). -/
inductive PyErr where
  | keyError : PyErr
  | indexError : PyErr
  | typeError : PyErr
  | attributeError : PyErr
  | valueError : PyErr
deriving DecidableEq

/-- Whether the exception class is in the tuple of line 352:
`except (KeyError, IndexError, TypeError)`. -/
def PyErr.caught : PyErr → Bool
  | .keyError => true
  | .indexError => true
  | .typeError => true
  | .attributeError => false
  | .valueError => false

/-- Python truthiness of a JSON value (`if expected_arrival:` and the
location fallback chain of lines 326-335). -/
def truthy : Json → Bool
  | .null => false
  | .bool b => b
  | .num n => decide (n ≠ 0)
  | .str s => decide (s ≠ "")
  | .arr xs => !xs.isEmpty
  | .obj kvs => !kvs.isEmpty

/-- Python `x.get(k, d)`: succeeds on a dict (returning the stored value, or
`d` when the key is absent); on any non-dict value the attribute lookup
`.get` raises `AttributeError`. -/
def dictGet (j : Json) (k : String) (d : Json) : Except PyErr Json :=
  match j with
  | .obj kvs => .ok ((kvs.lookup k).getD d)
  | _ => .error .attributeError

/-- Python `x[0]` (line 306): first element of a list (or `IndexError` when
empty), first character of a string, `KeyError` on a string-keyed dict,
`TypeError` on non-subscriptable values. -/
def index0 (j : Json) : Except PyErr Json :=
  match j with
  | .arr [] => .error .indexError
  | .arr (x :: _) => .ok x
  | .str s =>
    match s.toList with
    | [] => .error .indexError
    | c :: _ => .ok (.str (String.mk [c]))
  | .obj _ => .error .keyError
  | .num _ => .error .typeError
  | .bool _ => .error .typeError
  | .null => .error .typeError

/-- Python `for visit in stop_visits` (line 308): lists iterate elements,
strings iterate one-character strings, dicts iterate their keys, and other
values raise `TypeError` (not iterable). -/
def iterToList (j : Json) : Except PyErr (List Json) :=
  match j with
  | .arr xs => .ok xs
  | .str s => .ok (s.toList.map (fun c => .str (String.mk [c])))
  | .obj kvs => .ok (kvs.map (fun kv => .str kv.1))
  | .num _ => .error .typeError
  | .bool _ => .error .typeError
  | .null => .error .typeError

/-- Fuel-driven worker for Python `str.replace` (replace every occurrence,
scanning left to right, non-overlapping).  `fuel` bounds the recursion; it
is initialised to the length of the scanned list, which suffices because
every step consumes at least one character. -/
def replaceGo (pat rep : List Char) : Nat → List Char → List Char
  | _, [] => []
  | 0, l => l
  | Nat.succ fuel, c :: rest =>
    if pat ≠ [] ∧ (c :: rest).take pat.length = pat then
      rep ++ replaceGo pat rep fuel (rest.drop (pat.length - 1))
    else
      c :: replaceGo pat rep fuel rest

/-- Python `s.replace(pat, rep)` for a non-empty pattern, as used at
lines 340 (`.replace("Z", "+00:00")`) and 345 (`.replace("MTA NYCT_", "")`). -/
def replaceStr (s pat rep : String) : String :=
  (replaceGo pat.toList rep.toList s.toList.length s.toList).asString

/-- Python `int(d / 60)` on an exact integer number of seconds `d`:
float division followed by `int`, which truncates toward zero. -/
def pyTruncDiv60 (d : Int) : Int :=
  if 0 ≤ d then d / 60 else -((-d) / 60)

/-- The bus ETA computation of line 342:
`int((arrival_time - now).total_seconds() / 60)`. -/
def bus_minutes_away (arrival now : Int) : Int :=
  pyTruncDiv60 (arrival - now)

/-- The train ETA computation of line 121:
`int((arrival_time - now) / 60)`. -/
def train_minutes_away (arrival now : Int) : Int :=
  pyTruncDiv60 (arrival - now)

/-- Modelled from the spec: `eta_minutes = floor((t − now) / 60 seconds)`,
the mathematical floor division claimed in spec sections 4.3/4.4/8. -/
def eta_floor_spec (arrival now : Int) : Int :=
  Int.fdiv (arrival - now) 60

/-- One parsed bus arrival record, the dictionary appended at
lines 344-350 of `parse_arrivals`. -/
structure BusArrival where
  route : String
  current_location : Json
  minutes_away : Option Int
  stops_away : Json
  expected_arrival : Json

/-- The current-location fallback chain of lines 325-335: a truthy
presentable distance wins, then a truthy progress status, then the
f-string `f"From {origin_ref}"` of line 335 for a truthy origin
reference, and otherwise the initial literal `"Unknown"` of line 326.  The
f-string stringifies any value and never raises: `str()` is the identity
on strings and its rendering of other values is library behaviour,
modelled by `fmt`.  Only the `OriginRef` attribute lookup itself can raise
(an `AttributeError`, on a non-dict journey). -/
def locOf (fmt : Json → String) (journey presentable progress : Json) :
    Except PyErr Json :=
  if truthy presentable then .ok presentable
  else if truthy progress then .ok progress
  else
    match dictGet journey "OriginRef" (.str "") with
    | .error e => .error e
    | .ok origin =>
      if truthy origin then
        .ok (.str ("From " ++ (match origin with
          | .str s => s
          | other => fmt other)))
      else .ok (.str "Unknown")

/-- The ETA computation of lines 337-342: when a truthy expected arrival is
present, normalise `Z` to `+00:00`, parse it (`ValueError` when the parse
fails, `AttributeError` when the value has no `.replace`), read one fresh
wall-clock sample, and truncate the quotient by 60; otherwise the minutes
stay `None` and no clock sample is consumed. -/
def minutesOf (iso : String → Option Int) (clock : Nat → Int) (k : Nat)
    (expected : Json) : Except PyErr (Option Int × Nat) :=
  if truthy expected then
    match expected with
    | .str s =>
      match iso (replaceStr s "Z" "+00:00") with
      | some t => .ok (some (bus_minutes_away t (clock k)), k + 1)
      | none => .error .valueError
    | _ => .error .attributeError
  else .ok (none, k)

/-- The route extraction inside the append of line 345:
`line_ref.replace("MTA NYCT_", "")`, an `AttributeError` when the stored
`LineRef` value is not a string. -/
def routeOf (lineRef : Json) : Except PyErr String :=
  match lineRef with
  | .str s => .ok (replaceStr s "MTA NYCT_" "")
  | _ => .error .attributeError

/-- Processing of one stop visit, lines 309-350 of
`MTABusTracker.parse_arrivals`, in the source's evaluation order.  `k` is
the index of the next unread wall-clock sample; the returned index accounts
for the `datetime.now` call of line 341, which runs only when an expected
arrival time is present. -/
def processVisit (iso : String → Option Int) (fmt : Json → String)
    (clock : Nat → Int) (k : Nat) (visit : Json) :
    Except PyErr (BusArrival × Nat) := do
  let journey ← dictGet visit "MonitoredVehicleJourney" (.obj [])
  let call ← dictGet journey "MonitoredCall" (.obj [])
  let expected ← dictGet call "ExpectedArrivalTime" .null
  let ext ← dictGet call "Extensions" (.obj [])
  let dist ← dictGet ext "Distances" (.obj [])
  let stops ← dictGet dist "StopsFromCall" (.num 0)
  let lineRef ← dictGet journey "LineRef" (.str "Unknown")
  let progress ← dictGet journey "ProgressStatus" (.str "")
  let ext2 ← dictGet call "Extensions" (.obj [])
  let dist2 ← dictGet ext2 "Distances" (.obj [])
  let presentable ← dictGet dist2 "PresentableDistance" (.str "")
  let loc ← locOf fmt journey presentable progress
  let mk2 ← minutesOf iso clock k expected
  let route ← routeOf lineRef
  pure ({ route := route
          current_location := loc
          minutes_away := mk2.1
          stops_away := stops
          expected_arrival := expected }, mk2.2)

/-- The visit loop of lines 308-350: records appended in order; a raised
exception stops the loop, leaving the records accumulated so far in
`arrivals` (the second component reports the exception, if any). -/
def runVisits (iso : String → Option Int) (fmt : Json → String)
    (clock : Nat → Int) : List Json → Nat → List BusArrival × Option PyErr
  | [], _ => ([], none)
  | v :: rest, k =>
    match processVisit iso fmt clock k v with
    | .error e => ([], some e)
    | .ok (r, k2) =>
      match runVisits iso fmt clock rest k2 with
      | (rs, err) => (r :: rs, err)

/-- The top-level extraction of line 306 followed by entering the `for`
loop: `data.get("Siri", {}).get("ServiceDelivery", {})
.get("StopMonitoringDelivery", [{}])[0].get("MonitoredStopVisit", [])`,
then iteration over the resulting value. -/
def topLevelVisits (data : Json) : Except PyErr (List Json) :=
  match dictGet data "Siri" (.obj []) with
  | .error e => .error e
  | .ok a =>
  match dictGet a "ServiceDelivery" (.obj []) with
  | .error e => .error e
  | .ok b =>
  match dictGet b "StopMonitoringDelivery" (.arr [.obj []]) with
  | .error e => .error e
  | .ok c =>
  match index0 c with
  | .error e => .error e
  | .ok d =>
  match dictGet d "MonitoredStopVisit" (.arr []) with
  | .error e => .error e
  | .ok sv => iterToList sv

/-- `MTABusTracker.parse_arrivals` (lines 293-355).  The whole body runs
inside `try`; `except (KeyError, IndexError, TypeError)` prints a parse
error and falls through to `return arrivals`, which sits outside the `try`
and therefore returns whatever records were accumulated before the fault.
Result: `.ok (records, reportedParseError)`; exceptions outside the caught
tuple propagate as `.error`. -/
def parse_arrivals (iso : String → Option Int) (fmt : Json → String)
    (clock : Nat → Int) (data : Json) :
    Except PyErr (List BusArrival × Bool) :=
  match topLevelVisits data with
  | .error e => if e.caught then .ok ([], true) else .error e
  | .ok visits =>
    match runVisits iso fmt clock visits 0 with
    | (rs, none) => .ok (rs, false)
    | (rs, some e) => if e.caught then .ok (rs, true) else .error e

/-- Observable projection of a `parse_arrivals` result: the `minutes_away`
of each record and the reported-error flag. -/
def busMinutesOf (r : Except PyErr (List BusArrival × Bool)) :
    Option (List (Option Int) × Bool) :=
  match r with
  | .error _ => none
  | .ok (rs, b) => some (rs.map (fun a => a.minutes_away), b)

/-- One per-stop time update of a GTFS-realtime trip update; the `Option`
fields model protobuf `HasField('arrival')` / `HasField('departure')`. -/
structure StopTimeUpdate where
  stop_id : String
  arrival : Option Int
  departure : Option Int
deriving DecidableEq

/-- One trip update (`entity.trip_update`): route id plus its ordered
per-stop time updates. -/
structure TripUpdate where
  route_id : String
  stop_time_update : List StopTimeUpdate
deriving DecidableEq

/-- One feed entity; `trip_update = none` models
`entity.HasField('trip_update')` being false. -/
structure Entity where
  trip_update : Option TripUpdate
deriving DecidableEq

/-- One train arrival record, the dictionary appended at lines 125-130. -/
structure TrainArrival where
  route : String
  minutes_away : Int
  arrival_time : Int
  direction : String
deriving DecidableEq

/-- Python `stop_id.rstrip('NS')` (line 111): remove the longest trailing
run of characters from the set `{N, S}`. -/
def rstripNS (s : String) : String :=
  ((s.toList.reverse.dropWhile (fun c => c = 'N' || c = 'S')).reverse).asString

/-- Python `route.upper()` (line 106), on ASCII route letters. -/
def pyUpper (s : String) : String :=
  (s.toList.map Char.toUpper).asString

/-- Python `stop_update.stop_id.endswith("N")` (line 129). -/
def endsWithN (s : String) : Bool :=
  s.toList.getLast? = some 'N'

/-- The route filter of lines 105-107: `if route and trip_route !=
route.upper(): continue` — skip only when a truthy filter is set and the
uppercased filter differs from the trip's route id. -/
def routeMismatch (route : Option String) (trip_route : String) : Bool :=
  match route with
  | none => false
  | some r => if r = "" then false else decide (trip_route ≠ pyUpper r)

/-- Processing of one per-stop time update, lines 109-130: match the
station by the `rstrip('NS')`-canonicalised stop id, prefer arrival over
departure time, compute the minutes and keep the record only when the
minutes are non-negative. -/
def processUpdate (now : Int) (station_id route_id : String)
    (u : StopTimeUpdate) : Option TrainArrival :=
  if rstripNS u.stop_id = station_id then
    match (match u.arrival with
           | some t => some t
           | none => u.departure) with
    | none => none
    | some t =>
      if 0 ≤ train_minutes_away t now then
        some { route := route_id
               minutes_away := train_minutes_away t now
               arrival_time := t
               direction := if endsWithN u.stop_id then "Uptown" else "Downtown" }
      else none
  else none

/-- Records contributed by one feed entity (lines 100-130): nothing without
a trip update or when the route filter rejects it; otherwise the processed
per-stop updates in feed order. -/
def entityRecords (now : Int) (station_id : String) (route : Option String)
    (e : Entity) : List TrainArrival :=
  match e.trip_update with
  | none => []
  | some tu =>
    if routeMismatch route tu.route_id then []
    else tu.stop_time_update.filterMap (processUpdate now station_id tu.route_id)

/-- The pure normalization core of `MTATrainTracker.get_train_arrivals`
(lines 97-134), taking the already-decoded feed entities as input (the HTTP
fetch and protobuf decode of lines 89-95 supply `entities`).  The single
wall-clock sample of line 98 is the first clock read; line 133 sorts the
accumulated records by raw epoch `arrival_time` (Python's stable sort,
modelled by the stable `List.mergeSort`). -/
def get_train_arrivals (clock : Nat → Int) (station_id : String)
    (route : Option String) (entities : List Entity) : List TrainArrival :=
  let now := clock 0
  (entities.flatMap (entityRecords now station_id route)).mergeSort
    (fun a b => decide (a.arrival_time ≤ b.arrival_time))

/-- The bus display selection of the main loop (lines 605-629): walk the
parsed records in order, skip records whose `minutes_away` is `None`, and
stop once `max_buses` records have been shown. -/
def busDisplayLoop (max_buses : Nat) : List BusArrival → Nat → List BusArrival
  | [], _ => []
  | a :: rest, count =>
    if a.minutes_away = none then busDisplayLoop max_buses rest count
    else if max_buses ≤ count then []
    else a :: busDisplayLoop max_buses rest (count + 1)

/-- The bus records actually displayed in one tick (`count` starts at 0,
line 605). -/
def busDisplayed (arrivals : List BusArrival) (max_buses : Nat) :
    List BusArrival :=
  busDisplayLoop max_buses arrivals 0

/-- The train records actually displayed in one tick:
`train_arrivals[:max_trains]` (line 645). -/
def trainDisplayed (arrivals : List TrainArrival) (max_trains : Nat) :
    List TrainArrival :=
  arrivals.take max_trains

/-- The environment variables read by `main` that determine startup
(lines 492-543).  Every field is the raw `os.environ.get` result: `none`
when the variable is absent, `some s` when present (a present-but-empty
variable is `some ""`, which is falsy). -/
structure Env where
  mta_bus_api_key : Option String
  mta_api_key : Option String
  mta_stop_id : Option String
  mta_train_api_key : Option String
  mta_train_station_id : Option String
  mta_refresh_interval : Option String
deriving DecidableEq

/-- Python truthiness of `os.environ.get(...)`: `None` and the empty
string are falsy. -/
def strTruthy : Option String → Bool
  | none => false
  | some s => decide (s ≠ "")

/-- Python `a or b` on optional strings: the first operand when truthy,
otherwise the second (lines 492 and 510). -/
def pyOr (a b : Option String) : Option String :=
  if strTruthy a then a else b

/-- Line 497: `if bus_api_key and bus_stop_id`. -/
def busConfigured (e : Env) : Bool :=
  strTruthy (pyOr e.mta_bus_api_key e.mta_api_key) && strTruthy e.mta_stop_id

/-- Line 515: `if train_api_key and train_station_id`. -/
def trainConfigured (e : Env) : Bool :=
  strTruthy (pyOr e.mta_train_api_key e.mta_api_key) &&
    strTruthy e.mta_train_station_id

/-- Outcome of `main`'s startup section: `configError` is the early
`return` of line 529; `run` records the effective refresh interval, whether
the invalid-interval message (line 540) and the clamp message (line 537)
were printed, and which trackers are enabled. -/
inductive Startup where
  | configError : Startup
  | run (refresh_interval : Int) (invalidReported : Bool)
      (clampReported : Bool) (busEnabled : Bool) (trainEnabled : Bool) : Startup
deriving DecidableEq

/-- The startup section of `main` (lines 488-543): tracker configuration,
the no-tracker early return, and the refresh-interval resolution.  Line
533 (`if refresh_env:`) tests the truthiness of the raw value first, so an
absent or present-but-empty `MTA_REFRESH_INTERVAL` silently yields the
default 30 with no message; only a truthy value reaches `int()` (the
library parser, modelled by `pyInt`, `none` for its `ValueError`), whose
failure prints the invalid-value message and defaults to 30, and whose
success is floored at 5 with the clamp message. -/
def main_startup (pyInt : String → Option Int) (e : Env) : Startup :=
  let b := busConfigured e
  let t := trainConfigured e
  if !b && !t then .configError
  else
    match e.mta_refresh_interval with
    | none => .run 30 false false b t
    | some s =>
      if s = "" then .run 30 false false b t
      else
        match pyInt s with
        | some n => if n < 5 then .run 5 false true b t else .run n false false b t
        | none => .run 30 true false b t

/-! ## Helper lemmas -/

/-- A failed `dictGet` always raises `AttributeError`. -/
theorem dictGet_error {j : Json} {k : String} {d : Json} {e : PyErr}
    (h : dictGet j k d = Except.error e) : e = PyErr.attributeError := by
  unfold dictGet at h
  split at h <;> simp_all

/-- The location fallback chain can only raise the `AttributeError` of the
`OriginRef` lookup; the f-string of line 335 never raises. -/
theorem locOf_error {fmt : Json → String} {journey presentable progress : Json}
    {e : PyErr}
    (h : locOf fmt journey presentable progress = Except.error e) :
    e = PyErr.attributeError := by
  unfold locOf at h
  repeat' split at h
  all_goals simp_all
  all_goals (rename_i hd; exact dictGet_error hd)

/-- The ETA step can only raise the parse `ValueError` or the `.replace`
`AttributeError`. -/
theorem minutesOf_error {iso : String → Option Int} {clock : Nat → Int}
    {k : Nat} {expected : Json} {e : PyErr}
    (h : minutesOf iso clock k expected = Except.error e) :
    e = PyErr.valueError ∨ e = PyErr.attributeError := by
  unfold minutesOf at h
  repeat' split at h
  all_goals simp_all

/-- The route step can only raise the `.replace` `AttributeError`. -/
theorem routeOf_error {lineRef : Json} {e : PyErr}
    (h : routeOf lineRef = Except.error e) : e = PyErr.attributeError := by
  unfold routeOf at h
  split at h <;> simp_all

/-- Decomposition of a failed `Except` bind into a failing head or a
successful head with failing continuation. -/
theorem except_bind_error {α β : Type} {x : Except PyErr α}
    {f : α → Except PyErr β} {e : PyErr} (h : x >>= f = Except.error e) :
    x = Except.error e ∨ ∃ a, x = Except.ok a ∧ f a = Except.error e := by
  cases x with
  | error e2 =>
    left
    simp only [bind, Except.bind] at h
    cases h
    rfl
  | ok a =>
    right
    refine ⟨a, rfl, ?_⟩
    simpa only [bind, Except.bind] using h

/-- No exception class raised while processing a single visit belongs to
the caught tuple of line 352: every fault there is an `AttributeError` or
a `ValueError`. -/
theorem processVisit_error_not_caught {iso : String → Option Int}
    {fmt : Json → String} {clock : Nat → Int} {k : Nat} {v : Json} {e : PyErr}
    (h : processVisit iso fmt clock k v = Except.error e) :
    e.caught = false := by
  have hget : ∀ {j : Json} {key : String} {d : Json},
      dictGet j key d = Except.error e → e.caught = false := by
    intro j key d hd
    rw [dictGet_error hd]
    rfl
  unfold processVisit at h
  rcases except_bind_error h with h | ⟨_, _, h⟩
  · exact hget h
  rcases except_bind_error h with h | ⟨_, _, h⟩
  · exact hget h
  rcases except_bind_error h with h | ⟨_, _, h⟩
  · exact hget h
  rcases except_bind_error h with h | ⟨_, _, h⟩
  · exact hget h
  rcases except_bind_error h with h | ⟨_, _, h⟩
  · exact hget h
  rcases except_bind_error h with h | ⟨_, _, h⟩
  · exact hget h
  rcases except_bind_error h with h | ⟨_, _, h⟩
  · exact hget h
  rcases except_bind_error h with h | ⟨_, _, h⟩
  · exact hget h
  rcases except_bind_error h with h | ⟨_, _, h⟩
  · exact hget h
  rcases except_bind_error h with h | ⟨_, _, h⟩
  · exact hget h
  rcases except_bind_error h with h | ⟨_, _, h⟩
  · exact hget h
  rcases except_bind_error h with h | ⟨_, _, h⟩
  · rw [locOf_error h]
    rfl
  rcases except_bind_error h with h | ⟨_, _, h⟩
  · rcases minutesOf_error h with h1 | h1 <;> (rw [h1]; rfl)
  rcases except_bind_error h with h | ⟨_, _, h⟩
  · rw [routeOf_error h]
    rfl
  · exact absurd h (by simp [pure, Except.pure])

/-- The visit loop aborts only with exception classes outside the caught
tuple: a caught-class exception can therefore only arise before the loop,
while the accumulated record list is still empty. -/
theorem runVisits_error_not_caught {iso : String → Option Int}
    {fmt : Json → String} {clock : Nat → Int} :
    ∀ {visits : List Json} {k : Nat} {rs : List BusArrival} {e : PyErr},
      runVisits iso fmt clock visits k = (rs, some e) → e.caught = false := by
  intro visits
  induction visits with
  | nil =>
    intro k rs e h
    simp [runVisits] at h
  | cons v rest ih =>
    intro k rs e h
    cases hp : processVisit iso fmt clock k v with
    | error e2 =>
      simp only [runVisits, hp] at h
      have he : e2 = e := by
        have h2 := congrArg Prod.snd h
        simpa using h2
      subst he
      exact processVisit_error_not_caught hp
    | ok p =>
      obtain ⟨r, k2⟩ := p
      cases hr2 : runVisits iso fmt clock rest k2 with
      | mk rs2 err =>
        simp only [runVisits, hp, hr2] at h
        cases err with
        | none =>
          have h2 := congrArg Prod.snd h
          simp at h2
        | some e3 =>
          have he : e3 = e := by
            have h2 := congrArg Prod.snd h
            simpa using h2
          subst he
          exact ih hr2

/-- The head of a `dropWhile` result falsifies the dropped predicate. -/
theorem head_dropWhile_false {p : Char → Bool} {l : List Char} {c : Char}
    (h : (l.dropWhile p).head? = some c) : p c = false := by
  induction l with
  | nil => simp at h
  | cons a as ih =>
    rw [List.dropWhile_cons] at h
    split at h
    · exact ih h
    · simp_all

/-- The skip/break display loop of lines 605-629 equals filtering out the
`None`-minutes records and then truncating to the remaining display
budget. -/
theorem busDisplayLoop_eq (m : Nat) :
    ∀ (l : List BusArrival) (c : Nat),
      busDisplayLoop m l c =
        (l.filter (fun r => r.minutes_away.isSome)).take (m - c) := by
  intro l
  induction l with
  | nil => intro c; simp [busDisplayLoop]
  | cons a rest ih =>
    intro c
    rw [busDisplayLoop]
    by_cases hn : a.minutes_away = none
    · simp [hn, ih, List.filter_cons, Option.isSome]
    · have hs : a.minutes_away.isSome = true := Option.ne_none_iff_isSome.mp hn
      simp only [hn, if_false, List.filter_cons, hs, if_true]
      by_cases hc : m ≤ c
      · simp [hc, Nat.sub_eq_zero_of_le hc]
      · have h2 : m - c = (m - (c + 1)) + 1 := by omega
        simp [hc, h2, ih]

/-! ## Concrete inputs used by counterexamples and witnesses -/

/-- Timestamp parser mapping the tag `"P"` to epoch second 0. -/
def isoPast : String → Option Int := fun s => if s = "P" then some 0 else none

/-- One-visit bus payload whose expected arrival parses as epoch 0. -/
def payloadPast : Json :=
  .obj [("Siri", .obj [("ServiceDelivery", .obj [("StopMonitoringDelivery",
    .arr [.obj [("MonitoredStopVisit", .arr [
      .obj [("MonitoredVehicleJourney", .obj [
        ("MonitoredCall", .obj [("ExpectedArrivalTime", .str "P")]),
        ("LineRef", .str "MTA NYCT_M15")])]])]])])])]

/-- Timestamp parser mapping the tag `"A"` to epoch second 120. -/
def isoTwo : String → Option Int := fun s => if s = "A" then some 120 else none

/-- Bus payload with two visits carrying the same expected arrival. -/
def payloadTwo : Json :=
  .obj [("Siri", .obj [("ServiceDelivery", .obj [("StopMonitoringDelivery",
    .arr [.obj [("MonitoredStopVisit", .arr [
      .obj [("MonitoredVehicleJourney", .obj [
        ("MonitoredCall", .obj [("ExpectedArrivalTime", .str "A")]),
        ("LineRef", .str "MTA NYCT_M15")])],
      .obj [("MonitoredVehicleJourney", .obj [
        ("MonitoredCall", .obj [("ExpectedArrivalTime", .str "A")]),
        ("LineRef", .str "MTA NYCT_M15")])]])]])])])]

/-- Timestamp parser mapping the tag `"A"` to epoch second 300. -/
def isoPart : String → Option Int := fun s => if s = "A" then some 300 else none

/-- Stringifier standing in for the library `str()` in concrete runs. -/
def fmtW : Json → String := fun _ => "5"

/-- Integer parser standing in for the library `int()` in concrete runs:
parses `"2"`; on `"abc"` and on the empty string Python `int` raises
`ValueError`, so it returns `none` there. -/
def pyIntW : String → Option Int := fun s => if s = "2" then some 2 else none

/-- Bus payload whose `Siri` key holds a list, so the second `.get` of the
line-306 chain is attribute access on a non-dict and raises an uncaught
`AttributeError`. -/
def payloadSiriArr : Json := .obj [("Siri", .arr [])]

/-- Bus payload whose `StopMonitoringDelivery` is a dict, so the `[0]`
subscript of line 306 raises a `KeyError`. -/
def payloadKeyErr : Json :=
  .obj [("Siri", .obj [("ServiceDelivery", .obj [("StopMonitoringDelivery", .obj [])])])]

/-- One feed entity with two updates for station `127`. -/
def entsW : List Entity :=
  [⟨some ⟨"1", [⟨"127N", some 600, none⟩, ⟨"127S", some 120, none⟩]⟩⟩]

/-- A matching per-stop time update for station `127`. -/
def updW : StopTimeUpdate := ⟨"127N", some 120, none⟩

/-- Three parsed bus records, the middle one with indeterminate ETA. -/
def busRecsW : List BusArrival :=
  [⟨"M15", .str "x", some 3, .num 1, .str "A"⟩,
   ⟨"M15", .str "x", none, .num 1, .null⟩,
   ⟨"M15", .str "x", some 9, .num 2, .str "A"⟩]

/-- One train record. -/
def trainRecsW : List TrainArrival := [⟨"1", 2, 120, "Uptown"⟩]

/-- Bus configuration present, refresh interval configured as `"2"`. -/
def envClamp : Env := ⟨some "k", none, some "stop", none, none, some "2"⟩

/-- No environment variable set at all. -/
def envNone : Env := ⟨none, none, none, none, none, none⟩

/-- Bus configuration present, refresh interval present, non-empty and
unparseable. -/
def envInvalid : Env := ⟨some "k", none, some "stop", none, none, some "abc"⟩

/-- Bus configuration present, refresh interval present but empty (falsy
at line 533, though `int("")` would raise `ValueError`). -/
def envEmptyStr : Env := ⟨some "k", none, some "stop", none, none, some ""⟩

/-! ## Claim theorems -/

/-- Claim C1, counterexample: both normalizers compute the ETA with
Python's `int()` truncation toward zero, not the mathematical floor.  At
`t = 0`, `now = 90` (an arrival 90 seconds in the past) the code computes
`-1` while `floor((t - now)/60) = -2`; the full bus normalizer run on
`payloadPast` with wall clock at 90 produces the record minutes `-1`. -/
theorem eta_minutes_floor_counterexample :
    bus_minutes_away 0 90 = -1 ∧ train_minutes_away 0 90 = -1 ∧
    eta_floor_spec 0 90 = -2 ∧ bus_minutes_away 0 90 ≠ eta_floor_spec 0 90 ∧
    busMinutesOf (parse_arrivals isoPast fmtW (fun _ => 90) payloadPast) =
      some ([some (-1)], false) := by
  refine ⟨by decide, by decide, by decide, by decide, by decide⟩

/-- Claim C1, amended: for every arrival timestamp `t` and wall-clock
sample `now`, both normalizers compute `eta_minutes` as the truncation
toward zero of `(t - now)/60`; this equals `floor((t - now)/60)` whenever
`now ≤ t`, and for past `t` it is `-((now - t) / 60)` rounded toward zero
instead of the floor. -/
theorem eta_minutes_truncates_toward_zero (t now : Int) :
    bus_minutes_away t now = pyTruncDiv60 (t - now) ∧
    train_minutes_away t now = pyTruncDiv60 (t - now) ∧
    (now ≤ t → bus_minutes_away t now = eta_floor_spec t now ∧
      train_minutes_away t now = eta_floor_spec t now) ∧
    (t < now → bus_minutes_away t now = -((now - t) / 60) ∧
      train_minutes_away t now = -((now - t) / 60)) := by
  refine ⟨rfl, rfl, ?_, ?_⟩
  · intro h
    unfold bus_minutes_away train_minutes_away eta_floor_spec pyTruncDiv60
    rw [Int.fdiv_eq_ediv _ (by norm_num)]
    constructor <;> (split <;> omega)
  · intro h
    unfold bus_minutes_away train_minutes_away pyTruncDiv60
    constructor <;> (split <;> omega)

/-- Claim C1, witness: the amended theorem applied at a future arrival
(130 s ahead: 2 minutes) and at a past arrival (90 s ago: -1 minute). -/
theorem eta_minutes_truncates_toward_zero_witness :
    bus_minutes_away 130 0 = eta_floor_spec 130 0 ∧
    bus_minutes_away 0 90 = -((90 - 0) / 60) :=
  ⟨((eta_minutes_truncates_toward_zero 130 0).2.2.1 (by decide)).1,
   ((eta_minutes_truncates_toward_zero 0 90).2.2.2 (by decide)).1⟩

/-- Claim C2, counterexample: the bus normalizer samples the wall clock
inside the visit loop, once per visit with an expected arrival, so a
ticking clock gives two records with the same raw timestamp but different
minutes (`2` and `0`), which no single shared sample could produce; the
same payload under the constant clock yields `2` and `2`. -/
theorem shared_now_sample_counterexample :
    busMinutesOf (parse_arrivals isoTwo fmtW (fun n => 120 * n) payloadTwo) =
      some ([some 2, some 0], false) ∧
    busMinutesOf (parse_arrivals isoTwo fmtW (fun _ => 120 * 0) payloadTwo) =
      some ([some 2, some 2], false) ∧
    parse_arrivals isoTwo fmtW (fun n => 120 * n) payloadTwo ≠
      parse_arrivals isoTwo fmtW (fun _ => (fun n => 120 * n) 0) payloadTwo := by
  refine ⟨by decide, by decide, ?_⟩
  intro h
  have h2 := congrArg busMinutesOf h
  rw [show busMinutesOf (parse_arrivals isoTwo fmtW (fun n => 120 * n) payloadTwo) =
        some ([some 2, some 0], false) from by decide,
      show busMinutesOf
          (parse_arrivals isoTwo fmtW (fun _ => (fun n => (120:Int) * n) 0) payloadTwo) =
        some ([some 2, some 2], false) from by decide] at h2
  exact absurd h2 (by decide)

/-- Claim C2, amended: the train normalizer reads the wall clock once
(sample 0, taken before its loop), so its whole output depends only on
that sample; the bus normalizer's visit processing at sample index `k`
depends only on sample `k`, a fresh sample per timestamped visit. -/
theorem now_sampling_per_normalizer (clock clock2 : Nat → Int)
    (station : String) (route : Option String) (entities : List Entity) :
    (clock 0 = clock2 0 →
      get_train_arrivals clock station route entities =
        get_train_arrivals clock2 station route entities) ∧
    ∀ (iso : String → Option Int) (fmt : Json → String) (k : Nat) (v : Json),
      clock k = clock2 k →
        processVisit iso fmt clock k v = processVisit iso fmt clock2 k v := by
  constructor
  · intro h
    unfold get_train_arrivals
    rw [h]
  · intro iso fmt k v h
    unfold processVisit minutesOf
    rw [h]

/-- Claim C2, witness: the amended theorem applied to two clocks agreeing
at the sampled index. -/
theorem now_sampling_per_normalizer_witness :
    get_train_arrivals (fun n => (7:Int) + n) "127" none entsW =
      get_train_arrivals (fun _ => (7:Int)) "127" none entsW ∧
    processVisit isoTwo fmtW (fun n => (7:Int) + n) 1 (Json.obj []) =
      processVisit isoTwo fmtW (fun _ => (8:Int)) 1 (Json.obj []) :=
  ⟨(now_sampling_per_normalizer (fun n => (7:Int) + n) (fun _ => (7:Int))
      "127" none entsW).1 (by decide),
   (now_sampling_per_normalizer (fun n => (7:Int) + n) (fun _ => (8:Int))
      "127" none entsW).2 isoTwo fmtW 1 (Json.obj []) (by decide)⟩

/-- Claim C3, counterexample: on the payload whose `Siri` key holds a
list, the top-level extraction performs attribute access on a non-dict,
raising an `AttributeError` that the `except (KeyError, IndexError,
TypeError)` of line 352 does not catch; `parse_arrivals` therefore
propagates the exception to its caller instead of returning an empty
result list with a reported parse error, falsifying the claim that every
structural mismatch yields an empty list plus a reported error. -/
theorem parse_mismatch_uncaught_counterexample :
    parse_arrivals isoPart fmtW (fun _ => 0) payloadSiriArr =
      Except.error PyErr.attributeError ∧
    PyErr.attributeError.caught = false :=
  ⟨rfl, rfl⟩

/-- Claim C3, amended: a structural mismatch raising `KeyError`,
`IndexError` or `TypeError` — which for JSON-shaped payloads can only
happen during the top-level extraction of the visit list — is caught,
reported as a parse error, and yields the empty result list; no fault
inside the visit loop belongs to the caught classes, so a reported parse
error always comes with the empty list (never a partial record list),
while mismatches raising other exception classes (such as
`AttributeError`) propagate out of `parse_arrivals` uncaught. -/
theorem parse_error_catch_behavior (iso : String → Option Int)
    (fmt : Json → String) (clock : Nat → Int) (data : Json) (e : PyErr) :
    (topLevelVisits data = Except.error e →
      parse_arrivals iso fmt clock data =
        (if e.caught then Except.ok ([], true) else Except.error e)) ∧
    (∀ (k : Nat) (v : Json) (e2 : PyErr),
      processVisit iso fmt clock k v = Except.error e2 → e2.caught = false) ∧
    ∀ l : List BusArrival,
      parse_arrivals iso fmt clock data = Except.ok (l, true) → l = [] := by
  refine ⟨?_, ?_, ?_⟩
  · intro h
    unfold parse_arrivals
    rw [h]
  · intro k v e2 h
    exact processVisit_error_not_caught h
  · intro l hl
    unfold parse_arrivals at hl
    cases htop : topLevelVisits data with
    | error e2 =>
      rw [htop] at hl
      cases hcau : e2.caught <;> simp [hcau] at hl
      exact hl
    | ok visits =>
      cases hrv : runVisits iso fmt clock visits 0 with
      | mk rs err =>
        cases err with
        | none =>
          simp only [htop, hrv] at hl
          simp at hl
        | some e3 =>
          simp only [htop, hrv] at hl
          rw [runVisits_error_not_caught hrv] at hl
          simp at hl

/-- Claim C3, witness: the amended theorem applied to the dict-delivery
payload (caught `KeyError`: empty list plus reported parse error), to a
non-dict visit (whose `AttributeError` is outside the caught classes),
and to that payload's reported-error result (its record list is empty). -/
theorem parse_error_catch_behavior_witness :
    parse_arrivals isoPart fmtW (fun _ => 0) payloadKeyErr = Except.ok ([], true) ∧
    PyErr.caught PyErr.attributeError = false ∧
    ([] : List BusArrival) = [] := by
  refine ⟨?_, ?_, ?_⟩
  · have h := (parse_error_catch_behavior isoPart fmtW (fun _ => 0) payloadKeyErr
      PyErr.keyError).1 rfl
    simpa using h
  · exact (parse_error_catch_behavior isoPart fmtW (fun _ => 0) payloadKeyErr
      PyErr.keyError).2.1 0 (Json.num 3) PyErr.attributeError rfl
  · exact (parse_error_catch_behavior isoPart fmtW (fun _ => 0) payloadKeyErr
      PyErr.keyError).2.2 [] rfl

/-- Claim C4: a per-stop time update contributes a record only when its
stop id with the maximal trailing run of `N`/`S` characters removed
(`rstrip('NS')`) equals the requested station id, never otherwise; and
`rstripNS` indeed splits any stop id into a head with no trailing `N`/`S`
followed by a tail consisting only of `N`/`S` characters. -/
theorem station_suffix_match (now : Int) (station route_id : String)
    (u : StopTimeUpdate) :
    (processUpdate now station route_id u ≠ none → rstripNS u.stop_id = station) ∧
    (rstripNS u.stop_id ≠ station → processUpdate now station route_id u = none) ∧
    ∀ s : String, ∃ tail : List Char,
      s.toList = (rstripNS s).toList ++ tail ∧
      (∀ c ∈ tail, c = 'N' ∨ c = 'S') ∧
      ∀ c, (rstripNS s).toList.getLast? = some c → ¬(c = 'N' ∨ c = 'S') := by
  refine ⟨?_, ?_, ?_⟩
  · intro h
    unfold processUpdate at h
    by_cases hm : rstripNS u.stop_id = station
    · exact hm
    · simp [hm] at h
  · intro hm
    unfold processUpdate
    simp [hm]
  · intro s
    refine ⟨(s.toList.reverse.takeWhile (fun c => c = 'N' || c = 'S')).reverse, ?_, ?_, ?_⟩
    · show s.toList =
        ((s.toList.reverse.dropWhile (fun c => c = 'N' || c = 'S')).reverse).asString.toList ++
          (s.toList.reverse.takeWhile (fun c => c = 'N' || c = 'S')).reverse
      rw [show ∀ l : List Char, (List.asString l).toList = l from fun _ => rfl]
      rw [← List.reverse_append, List.takeWhile_append_dropWhile]
      rw [List.reverse_reverse]
    · intro c hc
      have := List.mem_takeWhile_imp (List.mem_reverse.mp hc)
      simpa using this
    · intro c hc
      show ¬(c = 'N' ∨ c = 'S')
      have h1 : ((s.toList.reverse.dropWhile
          (fun c => c = 'N' || c = 'S')).reverse).getLast? = some c := hc
      rw [List.getLast?_reverse] at h1
      have := head_dropWhile_false h1
      simpa using this

/-- Claim C4, witness: the theorem applied to the update at stop `127N`
for station `127` (included, canonical id matches) and station `903`
(mismatch, excluded). -/
theorem station_suffix_match_witness :
    rstripNS "127N" = "127" ∧ processUpdate 0 "903" "1" updW = none :=
  ⟨(station_suffix_match 0 "127" "1" updW).1 (by decide),
   (station_suffix_match 0 "903" "1" updW).2.1 (by decide)⟩

/-- Claim C5: in every tick the displayed bus view has at most `max_buses`
records and contains no record with indeterminate (`None`) minutes, and
the displayed train view has at most `max_trains` records (train records
carry total integer minutes by construction, so no `None` can occur
there). -/
theorem display_caps_and_filter (bus : List BusArrival) (max_buses : Nat)
    (train : List TrainArrival) (max_trains : Nat) :
    (busDisplayed bus max_buses).length ≤ max_buses ∧
    (∀ r ∈ busDisplayed bus max_buses, r.minutes_away ≠ none) ∧
    (trainDisplayed train max_trains).length ≤ max_trains := by
  refine ⟨?_, ?_, ?_⟩
  · rw [busDisplayed, busDisplayLoop_eq]
    calc ((bus.filter (fun r => r.minutes_away.isSome)).take (max_buses - 0)).length
        ≤ max_buses - 0 := by rw [List.length_take]; omega
      _ ≤ max_buses := by omega
  · intro r hr
    rw [busDisplayed, busDisplayLoop_eq] at hr
    have := List.mem_filter.mp (List.mem_of_mem_take hr)
    exact Option.ne_none_iff_isSome.mpr this.2
  · rw [trainDisplayed]
    rw [List.length_take]
    omega

/-- Claim C5, witness: the theorem applied to three parsed bus records
(one with `None` minutes) capped at 1 and one train record capped at 2. -/
theorem display_caps_and_filter_witness :
    (busDisplayed busRecsW 1).length ≤ 1 ∧
    (⟨"M15", .str "x", some 3, .num 1, .str "A"⟩ : BusArrival).minutes_away ≠ none ∧
    (trainDisplayed trainRecsW 2).length ≤ 2 :=
  ⟨(display_caps_and_filter busRecsW 1 trainRecsW 2).1,
   (display_caps_and_filter busRecsW 1 trainRecsW 2).2.1 _ (List.Mem.head _),
   (display_caps_and_filter busRecsW 1 trainRecsW 2).2.2⟩

/-- Claim C6: for every decoded feed, the list returned by the train
normalizer is non-decreasing in the raw epoch `arrival_time` stored in
each record. -/
theorem train_arrivals_sorted_by_epoch (clock : Nat → Int) (station : String)
    (route : Option String) (entities : List Entity) :
    List.Pairwise (fun a b => a.arrival_time ≤ b.arrival_time)
      (get_train_arrivals clock station route entities) := by
  unfold get_train_arrivals
  have h := @List.sorted_mergeSort TrainArrival
    (fun a b => decide (a.arrival_time ≤ b.arrival_time))
    (fun a b c hab hbc => by simp_all; omega)
    (fun a b => by simp [Int.le_total])
    (entities.flatMap (entityRecords (clock 0) station route))
  exact h.imp (fun hab => by simpa using hab)

/-- Claim C7: every record returned by the train normalizer has
non-negative minutes; updates whose computed minutes are negative are
discarded before the output is built. -/
theorem train_arrivals_nonnegative (clock : Nat → Int) (station : String)
    (route : Option String) (entities : List Entity) (r : TrainArrival)
    (hr : r ∈ get_train_arrivals clock station route entities) :
    0 ≤ r.minutes_away := by
  rw [get_train_arrivals, List.mem_mergeSort] at hr
  obtain ⟨e, _, hre⟩ := List.mem_flatMap.mp hr
  unfold entityRecords at hre
  split at hre
  · simp at hre
  · split at hre
    · simp at hre
    · obtain ⟨u, _, hu⟩ := List.mem_filterMap.mp hre
      unfold processUpdate at hu
      repeat' split at hu
      all_goals first
        | (injection hu with h2; subst h2; assumption)
        | simp at hu

/-- Claim C7, witness: the theorem applied to the record produced from the
update 120 s ahead in `entsW`. -/
theorem train_arrivals_nonnegative_witness :
    (0 : Int) ≤ (⟨"1", 2, 120, "Downtown"⟩ : TrainArrival).minutes_away :=
  train_arrivals_nonnegative (fun _ => 0) "127" none entsW
    ⟨"1", 2, 120, "Downtown"⟩
    (by rw [get_train_arrivals, List.mem_mergeSort]; decide)

/-- Claim C8: when a configured source exists and the refresh interval is
a non-empty value parsing as the integer `n`, the startup clamps `n < 5`
up to exactly 5 (printing the clamp message, still entering the run
state) and uses `n ≥ 5` unchanged. -/
theorem refresh_interval_clamped (pyInt : String → Option Int) (e : Env)
    (s : String) (n : Int)
    (hr : e.mta_refresh_interval = some s) (hs : s ≠ "")
    (hp : pyInt s = some n)
    (hc : busConfigured e = true ∨ trainConfigured e = true) :
    (n < 5 → main_startup pyInt e =
      Startup.run 5 false true (busConfigured e) (trainConfigured e)) ∧
    (5 ≤ n → main_startup pyInt e =
      Startup.run n false false (busConfigured e) (trainConfigured e)) := by
  have hbt : (!busConfigured e && !trainConfigured e) = false := by
    rcases hc with hc | hc <;> simp [hc]
  constructor <;> intro hn
  · simp [main_startup, hbt, hr, hs, hp, hn]
  · have hn2 : ¬ n < 5 := by omega
    simp [main_startup, hbt, hr, hs, hp, hn2]

/-- Claim C8, witness: the theorem applied to a bus-configured environment
with the interval configured as `"2"`, clamped to 5. -/
theorem refresh_interval_clamped_witness :
    main_startup pyIntW envClamp = Startup.run 5 false true true false :=
  (refresh_interval_clamped pyIntW envClamp "2" 2 rfl (by decide) rfl
    (Or.inl rfl)).1 (by decide)

/-- Claim C9: when neither the bus source nor the train source is usable,
startup ends in the configuration-error state (the early `return` of
line 529), never reaching the poll loop, whatever the integer parser
does. -/
theorem no_source_configuration_error (pyInt : String → Option Int) (e : Env)
    (hb : busConfigured e = false) (ht : trainConfigured e = false) :
    main_startup pyInt e = Startup.configError := by
  unfold main_startup
  rw [hb, ht]
  rfl

/-- Claim C9, witness: the theorem applied to the empty environment. -/
theorem no_source_configuration_error_witness :
    main_startup pyIntW envNone = Startup.configError :=
  no_source_configuration_error pyIntW envNone rfl rfl

/-- Claim C10, counterexample: with `MTA_REFRESH_INTERVAL` set to the
empty string, the value is present and does not parse as an integer
(`int("")` raises `ValueError`; the witness parser returns `none` on it),
yet line 533's `if refresh_env:` is falsy, so startup silently uses the
default 30 without reporting the invalid value — the run state carries a
false invalid-report flag where the claim demands a report for every
present unparseable value. -/
theorem invalid_interval_empty_counterexample :
    pyIntW "" = none ∧
    main_startup pyIntW envEmptyStr = Startup.run 30 false false true false ∧
    Startup.run 30 false false true false ≠ Startup.run 30 true false true false := by
  exact ⟨by decide, by decide, by decide⟩

/-- Claim C10, amended: when a source is configured, a present non-empty
`MTA_REFRESH_INTERVAL` value that does not parse as an integer makes
startup report the invalid value, skip the 5-second floor logic, and use
the default 30; a present-but-empty value is falsy at line 533 and yields
the same silent default 30 as an absent variable, with no report. -/
theorem invalid_interval_uses_default (pyInt : String → Option Int) (e : Env)
    (s : String)
    (hc : busConfigured e = true ∨ trainConfigured e = true)
    (hr : e.mta_refresh_interval = some s) :
    (s ≠ "" → pyInt s = none →
      main_startup pyInt e =
        Startup.run 30 true false (busConfigured e) (trainConfigured e)) ∧
    (s = "" →
      main_startup pyInt e =
        Startup.run 30 false false (busConfigured e) (trainConfigured e)) ∧
    main_startup pyInt { e with mta_refresh_interval := none } =
      Startup.run 30 false false (busConfigured e) (trainConfigured e) := by
  have hbt : (!busConfigured e && !trainConfigured e) = false := by
    rcases hc with hc | hc <;> simp [hc]
  have hb2 : busConfigured { e with mta_refresh_interval := none } = busConfigured e := rfl
  have ht2 : trainConfigured { e with mta_refresh_interval := none } = trainConfigured e := rfl
  refine ⟨?_, ?_, ?_⟩
  · intro hs hp
    simp [main_startup, hbt, hr, hs, hp]
  · intro hs
    simp [main_startup, hbt, hr, hs]
  · simp [main_startup, hb2, ht2, hbt]

/-- Claim C10, witness: the amended theorem applied to a bus-configured
environment with the unparseable value `"abc"` (reported, default 30),
with the empty value (silent default 30), and with the variable removed
(the same silent default 30). -/
theorem invalid_interval_uses_default_witness :
    main_startup pyIntW envInvalid = Startup.run 30 true false true false ∧
    main_startup pyIntW envEmptyStr = Startup.run 30 false false true false ∧
    main_startup pyIntW { envInvalid with mta_refresh_interval := none } =
      Startup.run 30 false false true false :=
  ⟨(invalid_interval_uses_default pyIntW envInvalid "abc" (Or.inl rfl) rfl).1
      (by decide) rfl,
   (invalid_interval_uses_default pyIntW envEmptyStr "" (Or.inl rfl) rfl).2.1 rfl,
   (invalid_interval_uses_default pyIntW envInvalid "abc" (Or.inl rfl) rfl).2.2⟩
